import Mathlib

/-!
Verification development for the ai-judge deliberation routes.

The embedding follows the two API route handlers of the repository:
- src/app/api/case/route.ts  (OpenCase: evidence intake, initial verdict, case creation)
- src/app/api/argue/route.ts (SubmitTurn: cap check, turn append, re-evaluation)

The Prisma store is modelled as a list of cases; each awaited database
operation of the handlers (findUnique, create) is one atomic step on that
list.  The LLM client (OpenAI via OpenRouter) is modelled as an explicit
function parameter returning Except, so that an oracle failure is the
Except error case and the catch block of the handler is the error branch.
-/

/-- A row of the Document table: one evidence record, with its side marker
and textual content.  Mirrors the fields the route code reads. -/
structure Document where
  side : String
  content : String
  deriving Repr, DecidableEq

/-- A row of the Argument table: one follow-up turn.  The route code stores
side and content and relies on a creation timestamp for ordering; no
sequence-number field exists in the code.  Timestamps are Nat ticks. -/
structure Argument where
  side : String
  content : String
  createdAt : Nat
  deriving Repr, DecidableEq

/-- A row of the Case table together with its included relations, as fetched
by findUnique with include in the argue route. -/
structure Case where
  id : String
  verdict : String
  documents : List Document
  arguments : List Argument
  deriving Repr, DecidableEq

/-- The persistent store: the list of all cases. -/
abbrev Store := List Case

/-- The error responses the two route handlers can produce, by HTTP status:
400 missing or empty input, 404 unknown case, 403 cap reached, 500 the
catch-all branch (in particular an LLM client failure). -/
inductive ApiError where
  | validationError
  | notFound
  | capExceeded
  | internalError
  deriving Repr, DecidableEq

/-- One chat message sent to the LLM client. -/
structure Msg where
  role : String
  content : String
  deriving Repr, DecidableEq

/-- Lookup of one side of the original evidence, from the argue route:
documents.find by side, then content with fallback N/A when the document is
absent or its content is empty (the JS or-else treats the empty string as
falsy). -/
def docContent (docs : List Document) (s : String) : String :=
  match docs.find? (fun d => d.side = s) with
  | some d => if d.content = "" then "N/A" else d.content
  | none => "N/A"

/-- The system message text of the argue route, with both original evidence
texts and the initial verdict interpolated. -/
def systemContent (docA docB verdict : String) : String :=
  "You are an AI Judge who has already given an initial verdict.\n          You must \"think again\" and re-evaluate your position based on new arguments.\n          \n          --- ORIGINAL EVIDENCE & VERDICT ---\n          Side A: " ++ docA ++ "\n          Side B: " ++ docB ++ "\n          Your Initial Verdict: " ++ verdict ++ "\n          --- END OF CONTEXT ---\n        "

/-- The per-turn history message text of the argue route. -/
def historyLine (a : Argument) : String :=
  "Argument from Side " ++ a.side ++ ": \"" ++ a.content ++ "\""

/-- The closing instruction of the final message of the argue route. -/
def reevalInstruction : String :=
  "Please provide your re-evaluation."

/-- The final message text of the argue route, carrying the new argument
labeled by its side and ending with the re-evaluation instruction. -/
def newArgLine (side content : String) : String :=
  "Here is a new argument from Side " ++ side ++ ": \"" ++ content ++ "\". " ++ reevalInstruction

/-- Step 4 of the argue route: start from the system message, push one user
message per prior argument in fetched order (forEach push), then push the
new-argument message. -/
def buildMessages (docA docB verdict : String) (priors : List Argument)
    (side content : String) : List Msg :=
  let base : List Msg := [⟨"system", systemContent docA docB verdict⟩]
  let withHist := priors.foldl (fun acc a => acc ++ [⟨"user", historyLine a⟩]) base
  withHist ++ [⟨"user", newArgLine side content⟩]

/-- Steps 5 and 6 of the argue route, after the LLM call: a thrown error is
caught and becomes the 500 response; a null or empty completion text falls
back to a default; otherwise the text is returned with the submitting side. -/
def argueRespond (res : Except Unit String) (side : String) :
    Except ApiError (String × String) :=
  match res with
  | .error _ => .error .internalError
  | .ok txt => .ok ((if txt = "" then "No response received." else txt), side)

/-- Rewrite one case of the store in place, as the argument create does for
the case it belongs to. -/
def updateCase (store : Store) (caseId : String) (f : Case → Case) : Store :=
  store.map (fun c => if c.id = caseId then f c else c)

/-- Append one argument row to its case, as prisma.argument.create does. -/
def appendArgument (store : Store) (caseId : String) (a : Argument) : Store :=
  updateCase store caseId (fun c => { c with arguments := c.arguments ++ [a] })

/-- The POST handler of src/app/api/argue/route.ts, sequentially: parse and
truthiness-check the body fields, fetch the case with its documents and
ordered arguments, enforce the 5-argument constraint, persist the new
argument, build the full context, call the LLM, and answer.  Returns the
response, the resulting store, and whether the LLM client was invoked. -/
def arguePost (oracle : List Msg → Except Unit String) (store : Store)
    (caseId side argumentText : String) (now : Nat) :
    Except ApiError (String × String) × Store × Bool :=
  if caseId = "" ∨ side = "" ∨ argumentText = "" then
    (.error .validationError, store, false)
  else
    match store.find? (fun c => c.id = caseId) with
    | none => (.error .notFound, store, false)
    | some existingCase =>
      if 5 ≤ existingCase.arguments.length then
        (.error .capExceeded, store, false)
      else
        let store2 := appendArgument store caseId ⟨side, argumentText, now⟩
        let docA := docContent existingCase.documents "A"
        let docB := docContent existingCase.documents "B"
        let messages :=
          buildMessages docA docB existingCase.verdict existingCase.arguments side argumentText
        (argueRespond (oracle messages) side, store2, true)

/-- The initial-verdict prompt of src/app/api/case/route.ts with both
evidence texts interpolated. -/
def initialPrompt (contentA contentB : String) : String :=
  "\n      You are an AI Judge for a mock trial. Analyze the evidence from Side A and Side B and provide an initial, impartial verdict.\n      Explain your reasoning clearly.\n\n      " ++ contentA ++ "\n\n      " ++ contentB ++ "\n\n      Your Verdict:\n      \n      Do not use any markdown formatting.\n    "

/-- The POST handler of src/app/api/case/route.ts: reject when both extracted
contents are empty, call the LLM for the initial verdict (a failure is caught
and becomes the 500 response with nothing persisted), then create the case
with its two document rows and the verdict in one nested create, and return
the case id and verdict. -/
def casePost (oracle : String → Except Unit String) (store : Store)
    (contentA contentB newId : String) :
    Except ApiError (String × String) × Store :=
  if contentA = "" ∧ contentB = "" then
    (.error .validationError, store)
  else
    match oracle (initialPrompt contentA contentB) with
    | .error _ => (.error .internalError, store)
    | .ok verdictText =>
      let verdict := if verdictText = "" then "No verdict received." else verdictText
      let newCase : Case := ⟨newId, verdict, [⟨"A", contentA⟩, ⟨"B", contentB⟩], []⟩
      (.ok (newId, verdict), store ++ [newCase])

/-- An uploaded file as the case route sees it: byte size, MIME type, text
decoded from its bytes. -/
structure FileUpload where
  size : Nat
  mimeType : String
  data : String
  deriving Repr, DecidableEq

/-- getTextFromBuffer of the case route: only text/plain is decoded; every
other MIME type yields the empty string. -/
def getTextFromBuffer (data mimeType : String) : String :=
  if mimeType = "text/plain" then data else ""

/-- getSideContent of the case route: a present file of positive size wins
and is decoded by getTextFromBuffer; otherwise a truthy (non-empty) text
field is used; otherwise the empty string. -/
def getSideContent (file : Option FileUpload) (text : Option String) : String :=
  match file with
  | some f =>
    if 0 < f.size then getTextFromBuffer f.data f.mimeType
    else
      match text with
      | some t => if t = "" then "" else t
      | none => ""
  | none =>
    match text with
    | some t => if t = "" then "" else t
    | none => ""

/-!
Interleaving model of concurrent SubmitTurn handlers.

In the argue route the cap enforcement is split across two separately
awaited, non-transactional database operations: the fetch of the case
(findUnique, lines 32 to 38) and the insert of the new argument
(argument.create, lines 53 to 59); the length check (line 45) runs
in memory on the fetched snapshot in between.  Concurrent request
handlers interleave at these await points, so each handler is modelled
with a program counter: pc 0 before the fetch, pc 1 holding a snapshot,
pc 2 finished with its outcome recorded in ok.
-/

/-- The local state of one in-flight SubmitTurn handler. -/
structure ThreadState where
  side : String
  content : String
  now : Nat
  pc : Nat
  snapshot : List Argument
  ok : Bool
  deriving Repr, DecidableEq

/-- The shared store plus every in-flight handler. -/
structure RaceState where
  store : Store
  threads : List ThreadState
  deriving Repr, DecidableEq

/-- Run handler i for one database step against the shared store: at pc 0 it
performs the fetch and records the snapshot of the argument list; at pc 1 it
applies the length check of line 45 to its snapshot and, when under the cap,
performs the insert of lines 53 to 59. -/
def threadStep (caseId : String) (st : RaceState) (i : Nat) : RaceState :=
  match st.threads.get? i with
  | none => st
  | some t =>
    if t.pc = 0 then
      match st.store.find? (fun c => c.id = caseId) with
      | none => { st with threads := st.threads.set i { t with pc := 2, ok := false } }
      | some c => { st with threads := st.threads.set i { t with pc := 1, snapshot := c.arguments } }
    else if t.pc = 1 then
      if 5 ≤ t.snapshot.length then
        { st with threads := st.threads.set i { t with pc := 2, ok := false } }
      else
        { store := appendArgument st.store caseId ⟨t.side, t.content, t.now⟩,
          threads := st.threads.set i { t with pc := 2, ok := true } }
    else st

/-- Run the handlers under a schedule: the list of handler indices in the
order the store serves their database operations. -/
def runSchedule (caseId : String) (st : RaceState) (sched : List Nat) : RaceState :=
  sched.foldl (threadStep caseId) st

/-- The stored turn count of a case, as subsequent reads observe it. -/
def turnCount (store : Store) (caseId : String) : Option Nat :=
  (store.find? (fun c => c.id = caseId)).map (fun c => c.arguments.length)

/-- A case with four stored turns: exactly one free slot under the cap. -/
def case4 : Case :=
  ⟨"c1", "v0", [⟨"A", "ea"⟩, ⟨"B", "eb"⟩],
   [⟨"A", "t1", 1⟩, ⟨"B", "t2", 2⟩, ⟨"A", "t3", 3⟩, ⟨"B", "t4", 4⟩]⟩

/-- Two concurrent SubmitTurn handlers, one per side, against case4. -/
def raceInit : RaceState :=
  ⟨[case4], [⟨"A", "argA", 5, 0, [], false⟩, ⟨"B", "argB", 5, 0, [], false⟩]⟩

/-- The schedule in which both handlers perform their fetch before either
performs its insert. -/
def raceFinal : RaceState := runSchedule "c1" raceInit [0, 1, 0, 1]

/-!
Reading order of the turn log.

The argue route fetches the arguments with orderBy createdAt ascending and
nothing else; the Argument rows carry no sequence-number column.  The
semantics of that query is: some permutation of the stored rows that is
nondecreasing in createdAt, the order of rows with equal createdAt being
unspecified.
-/

/-- Nondecreasing in createdAt: what orderBy createdAt ascending guarantees. -/
def sortedByCreatedAt (l : List Argument) : Prop :=
  l.Pairwise (fun a b => a.createdAt ≤ b.createdAt)

/-- A list the orderBy createdAt ascending query may return for a stored
argument list. -/
def validReadOrder (stored out : List Argument) : Prop :=
  stored.Perm out ∧ sortedByCreatedAt out

/-- Two distinct turns created within the same timestamp resolution. -/
def argA7 : Argument := ⟨"A", "x", 7⟩

/-- The second of the two same-tick turns. -/
def argB7 : Argument := ⟨"B", "y", 7⟩

/-- A case holding five turns: the cap is reached. -/
def case5 : Case :=
  ⟨"c1", "v0", [⟨"A", "ea"⟩, ⟨"B", "eb"⟩],
   [⟨"A", "t1", 1⟩, ⟨"B", "t2", 2⟩, ⟨"A", "t3", 3⟩, ⟨"B", "t4", 4⟩, ⟨"A", "t5", 5⟩]⟩

/-- A fresh case with no turns. -/
def case0 : Case := ⟨"c1", "v0", [⟨"A", "ea"⟩, ⟨"B", "eb"⟩], []⟩

/-- C1: the conditional turn append is NOT linearizable per case.  Against
case4, which has exactly one free slot, the schedule fetch0 fetch1 insert0
insert1 lets both concurrent SubmitTurn handlers observe a snapshot of four
turns, and both succeed in appending. -/
theorem submitTurn_race_both_succeed :
    case4.arguments.length = 4 ∧
    raceFinal.threads.map ThreadState.ok = [true, true] ∧
    raceFinal.threads.map (fun t => t.snapshot.length) = [4, 4] :=
  ⟨rfl, rfl, rfl⟩

/-- C2: the turn-count bound of 5 is not preserved under concurrency: the
same interleaving drives the stored count of case c1 from 4 to 6, violating
len(turns) at most 5. -/
theorem turn_cap_violated_under_race :
    turnCount raceInit.store "c1" = some 4 ∧
    turnCount raceFinal.store "c1" = some 6 :=
  ⟨rfl, rfl⟩

/-- C3: the code stores no sequence numbers and orders turns by createdAt
alone, so the order of turns is not totally determined: for two distinct
turns created at the same tick, both relative orders are valid results of
the orderBy createdAt ascending read. -/
theorem createdAt_order_not_total :
    argA7 ≠ argB7 ∧ argA7.createdAt = argB7.createdAt ∧
    validReadOrder [argA7, argB7] [argA7, argB7] ∧
    validReadOrder [argA7, argB7] [argB7, argA7] := by
  refine ⟨by decide, rfl, ⟨List.Perm.refl _, ?_⟩, ⟨List.Perm.swap _ _ _, ?_⟩⟩ <;>
    simp [sortedByCreatedAt, argA7, argB7]

/-- C8: a non-empty side value outside A and B passes the truthiness check of
the argue route: against a fresh case, side C with non-empty content is
accepted, the turn with side C is persisted, and the LLM is called, instead
of the call failing with a validation error and changing no state. -/
theorem invalid_side_accepted :
    arguePost (fun _ => .ok "resp") [case0] "c1" "C" "hello" 3
      = (.ok ("resp", "C"), [{ case0 with arguments := [⟨"C", "hello", 3⟩] }], true) := by
  rfl

/-- Appending an argument to a case rewrites only that case, so a later
lookup of the case sees exactly the old arguments plus the new row. -/
theorem find_appendArgument (store : Store) (caseId : String) (a : Argument) :
    (appendArgument store caseId a).find? (fun x => x.id = caseId)
      = (store.find? (fun x => x.id = caseId)).map
          (fun c => { c with arguments := c.arguments ++ [a] }) := by
  induction store with
  | nil => rfl
  | cons c rest ih =>
    by_cases h : c.id = caseId
    · simp [appendArgument, updateCase, List.find?, h]
    · simpa [appendArgument, updateCase, List.find?, h] using ih

/-- C4: a SubmitTurn against a case already holding five (or more) turns is
rejected with the 403 cap error, the LLM client is never invoked, and the
store is returned unchanged: the rejected content is not persisted and the
turn count does not move. -/
theorem submit_at_cap_rejected
    (oracle : List Msg → Except Unit String) (store : Store)
    (caseId side argumentText : String) (now : Nat) (c : Case)
    (hid : caseId ≠ "") (hside : side ≠ "") (hcontent : argumentText ≠ "")
    (hfind : store.find? (fun x => x.id = caseId) = some c)
    (hcap : 5 ≤ c.arguments.length) :
    arguePost oracle store caseId side argumentText now
      = (.error .capExceeded, store, false) := by
  simp [arguePost, hfind, hid, hside, hcontent, hcap]

/-- Closed instance of submit_at_cap_rejected at the five-turn case. -/
theorem submit_at_cap_rejected_witness :
    arguePost (fun _ => .ok "r") [case5] "c1" "A" "x" 9
      = (.error .capExceeded, [case5], false) :=
  submit_at_cap_rejected (fun _ => .ok "r") [case5] "c1" "A" "x" 9 case5
    (by decide) (by decide) (by decide) (by decide) (by decide)

/-- C5: when the cap check passes but the LLM call fails, the caller gets
the 500 error rather than a success, the LLM was indeed invoked, and the
just-appended turn stays persisted: a subsequent lookup of the case returns
the old turn list extended by the new row, so it counts against the cap. -/
theorem oracle_failure_keeps_turn
    (oracle : List Msg → Except Unit String) (store : Store)
    (caseId side argumentText : String) (now : Nat) (c : Case)
    (hid : caseId ≠ "") (hside : side ≠ "") (hcontent : argumentText ≠ "")
    (hfind : store.find? (fun x => x.id = caseId) = some c)
    (hcap : c.arguments.length < 5)
    (hfail : oracle (buildMessages (docContent c.documents "A") (docContent c.documents "B")
        c.verdict c.arguments side argumentText) = .error ()) :
    (arguePost oracle store caseId side argumentText now).1 = .error .internalError ∧
    (arguePost oracle store caseId side argumentText now).2.2 = true ∧
    ((arguePost oracle store caseId side argumentText now).2.1).find? (fun x => x.id = caseId)
      = some { c with arguments := c.arguments ++ [⟨side, argumentText, now⟩] } := by
  have hnot : ¬ 5 ≤ c.arguments.length := by omega
  refine ⟨?_, ?_, ?_⟩ <;>
    simp [arguePost, hfind, hid, hside, hcontent, hnot, hfail, argueRespond,
      find_appendArgument]

/-- Closed instance of oracle_failure_keeps_turn at the fresh case with an
always-failing LLM client. -/
theorem oracle_failure_keeps_turn_witness :
    (arguePost (fun _ => .error ()) [case0] "c1" "A" "x" 9).1 = .error .internalError ∧
    (arguePost (fun _ => .error ()) [case0] "c1" "A" "x" 9).2.2 = true ∧
    ((arguePost (fun _ => .error ()) [case0] "c1" "A" "x" 9).2.1).find? (fun x => x.id = "c1")
      = some { case0 with arguments := case0.arguments ++ [⟨"A", "x", 9⟩] } :=
  oracle_failure_keeps_turn (fun _ => .error ()) [case0] "c1" "A" "x" 9 case0
    (by decide) (by decide) (by decide) (by decide) (by decide) rfl

/-- C6: when the LLM call of OpenCase fails, the whole operation ends in the
500 error and the store is unchanged: no case row, no document rows and no
verdict are persisted, so case creation has no partial-commit window. -/
theorem openCase_oracle_failure_persists_nothing
    (oracle : String → Except Unit String) (store : Store)
    (contentA contentB newId : String)
    (hne : ¬ (contentA = "" ∧ contentB = ""))
    (hfail : oracle (initialPrompt contentA contentB) = .error ()) :
    casePost oracle store contentA contentB newId = (.error .internalError, store) := by
  simp [casePost, hne, hfail]

/-- Closed instance of openCase_oracle_failure_persists_nothing on an empty
store with an always-failing LLM client. -/
theorem openCase_oracle_failure_persists_nothing_witness :
    casePost (fun _ => .error ()) [] "ev" "" "id1" = (.error .internalError, []) :=
  openCase_oracle_failure_persists_nothing (fun _ => .error ()) [] "ev" "" "id1"
    (by decide) rfl

/-- The forEach push loop of the argue route appends, in order, one message
per prior argument. -/
theorem foldl_push_eq_append (base : List Msg) (priors : List Argument) :
    priors.foldl (fun acc a => acc ++ [⟨"user", historyLine a⟩]) base
      = base ++ priors.map (fun a => ⟨"user", historyLine a⟩) := by
  induction priors generalizing base with
  | nil => simp
  | cons a rest ih => simp [ih, List.append_assoc]

/-- C7: on the successful path, the context handed to the LLM is exactly the
system message carrying both original evidence texts and the initial
verdict, followed by one message per prior turn in fetched order labeled by
its side, followed by the message carrying the just-appended turn labeled by
its side; that last message ends with the explicit re-evaluation
instruction, so the history in the context includes the new turn. -/
theorem oracle_context_order
    (oracle : List Msg → Except Unit String) (store : Store)
    (caseId side argumentText : String) (now : Nat) (c : Case)
    (hid : caseId ≠ "") (hside : side ≠ "") (hcontent : argumentText ≠ "")
    (hfind : store.find? (fun x => x.id = caseId) = some c)
    (hcap : c.arguments.length < 5) :
    arguePost oracle store caseId side argumentText now
      = (argueRespond
           (oracle (Msg.mk "system"
                (systemContent (docContent c.documents "A") (docContent c.documents "B")
                  c.verdict)
              :: (c.arguments.map (fun a => Msg.mk "user" (historyLine a))
                  ++ [Msg.mk "user" (newArgLine side argumentText)])))
           side,
         appendArgument store caseId ⟨side, argumentText, now⟩, true)
    ∧ ∃ s, newArgLine side argumentText = s ++ reevalInstruction := by
  have hnot : ¬ 5 ≤ c.arguments.length := by omega
  refine ⟨?_, ⟨_, rfl⟩⟩
  simp [arguePost, hfind, hid, hside, hcontent, hnot, buildMessages, foldl_push_eq_append]

/-- Closed instance of oracle_context_order at the four-turn case. -/
theorem oracle_context_order_witness :
    arguePost (fun _ => .ok "re") [case4] "c1" "A" "x" 9
      = (.ok ("re", "A"), appendArgument [case4] "c1" ⟨"A", "x", 9⟩, true)
    ∧ ∃ s, newArgLine "A" "x" = s ++ reevalInstruction :=
  oracle_context_order (fun _ => .ok "re") [case4] "c1" "A" "x" 9 case4
    (by decide) (by decide) (by decide) (by decide) (by decide)

/-- C9: OpenCase answers the 400 validation error exactly when both extracted
evidence contents are empty; otherwise, when the LLM call succeeds, it
persists in one step a single new case carrying the verdict and exactly two
document rows, one for side A and one for side B, and returns the case id
and the verdict. -/
theorem openCase_validation_and_persist
    (oracle : String → Except Unit String) (store : Store)
    (contentA contentB newId : String) :
    ((casePost oracle store contentA contentB newId).1 = .error .validationError
        ↔ (contentA = "" ∧ contentB = ""))
    ∧ (∀ v, ¬ (contentA = "" ∧ contentB = "") →
        oracle (initialPrompt contentA contentB) = .ok v →
        casePost oracle store contentA contentB newId
          = (.ok (newId, if v = "" then "No verdict received." else v),
             store ++ [⟨newId, if v = "" then "No verdict received." else v,
                        [⟨"A", contentA⟩, ⟨"B", contentB⟩], []⟩])) := by
  constructor
  · by_cases h : contentA = "" ∧ contentB = ""
    · simp [casePost, h]
    · cases hres : oracle (initialPrompt contentA contentB) with
      | error e => simp [casePost, h, hres]
      | ok v => simp [casePost, h, hres]
  · intro v h hok
    simp [casePost, h, hok]

/-- Closed instance of openCase_validation_and_persist: one side non-empty,
LLM succeeding. -/
theorem openCase_validation_and_persist_witness :
    ((casePost (fun _ => .ok "verdict1") [] "ev" "" "id1").1 = .error .validationError
        ↔ ("ev" = "" ∧ "" = ""))
    ∧ casePost (fun _ => .ok "verdict1") [] "ev" "" "id1"
        = (.ok ("id1", "verdict1"),
           [⟨"id1", "verdict1", [⟨"A", "ev"⟩, ⟨"B", ""⟩], []⟩]) :=
  ⟨(openCase_validation_and_persist (fun _ => .ok "verdict1") [] "ev" "" "id1").1,
   (openCase_validation_and_persist (fun _ => .ok "verdict1") [] "ev" "" "id1").2
     "verdict1" (by decide) rfl⟩

/-- C10: in evidence extraction a non-empty file wins over any pasted text
for its side; when that file is not text/plain the side content collapses to
the empty string even though non-empty text was supplied; and when this
happens on both sides, OpenCase fails with the 400 validation error. -/
theorem file_precedence_and_type_filter :
    (∀ (f : FileUpload) (t1 t2 : Option String), 0 < f.size →
        getSideContent (some f) t1 = getSideContent (some f) t2)
    ∧ (∀ (f : FileUpload) (t : String), 0 < f.size → f.mimeType ≠ "text/plain" →
        getSideContent (some f) (some t) = "")
    ∧ (∀ (oracle : String → Except Unit String) (store : Store)
          (fA fB : FileUpload) (tA tB : String) (newId : String),
        0 < fA.size → 0 < fB.size →
        fA.mimeType ≠ "text/plain" → fB.mimeType ≠ "text/plain" →
        (casePost oracle store (getSideContent (some fA) (some tA))
            (getSideContent (some fB) (some tB)) newId).1 = .error .validationError) := by
  refine ⟨?_, ?_, ?_⟩
  · intro f t1 t2 hf
    simp [getSideContent, hf]
  · intro f t hf hm
    simp [getSideContent, getTextFromBuffer, hf, hm]
  · intro oracle store fA fB tA tB newId hA hB hmA hmB
    simp [getSideContent, getTextFromBuffer, hA, hB, hmA, hmB, casePost]

/-- Closed instance of file_precedence_and_type_filter with a PDF on side A
and a PNG on side B, both with pasted text present. -/
theorem file_precedence_and_type_filter_witness :
    getSideContent (some ⟨3, "application/pdf", "blob"⟩) (some "ta") = "" ∧
    (casePost (fun _ => .ok "v") []
        (getSideContent (some ⟨3, "application/pdf", "blob"⟩) (some "ta"))
        (getSideContent (some ⟨2, "image/png", "img"⟩) (some "tb")) "id1").1
      = .error .validationError :=
  ⟨file_precedence_and_type_filter.2.1 ⟨3, "application/pdf", "blob"⟩ "ta"
     (by decide) (by decide),
   file_precedence_and_type_filter.2.2 (fun _ => .ok "v") []
     ⟨3, "application/pdf", "blob"⟩ ⟨2, "image/png", "img"⟩ "ta" "tb" "id1"
     (by decide) (by decide) (by decide) (by decide)⟩



